import Mathlib

set_option autoImplicit false

namespace WxmpRecruit

/-
Shallow embedding of the share-to-unlock content-gating mechanism of the
wxmp-job-recruit repository.

Calendar days are modelled as canonical day strings (the code compares days by
string equality: `new Date(x).toDateString()` on the client and backend
controllers, `toISOString().split(...)` in the Share model statics).  A missing
or invalid publish date (JS `null` / `undefined`, or an empty string, which all
compare unequal to the current day string after `new Date` parsing) is modelled
as `none` resp. `some ""`.  Mongo collections are modelled as lists of records;
`findOne` is `List.find?`, a `save` of a found document updates the first
matching record.
-/

/--
Day-equality test used by the gating code paths.  Models
`src/src/pages/detail/utils/detailUtils.js` `isToday` (falsy guard, then
`new Date(publishDate).toDateString() === today`) and the inline
`new Date(job.publishTime).toDateString() === new Date().toDateString()`
comparisons of the backend controllers: a missing or empty publish date parses
to an invalid date and never equals the current day string.
-/
def isToday (publishDate : Option String) (today : String) : Bool :=
  match publishDate with
  | none => false
  | some d => if d = "" then false else d == today

/--
Client-side unlock check, `src/src/stores/modules/filterModule.js` lines
349-358: falsy dates are never unlocked, dates equal to today are always
unlocked, otherwise membership in the `unlockedDates` record decides.
-/
def userUtils.isDateUnlocked (date : Option String) (today : String)
    (unlockedDates : List String) : Bool :=
  match date with
  | none => false
  | some d =>
    if d = "" then false
    else if d == today then true
    else unlockedDates.contains d

/--
Client-side unlock write, `filterModule.js` lines 367-374: a falsy date leaves
the record unchanged, otherwise the date key is added.
-/
def userUtils.unlockDate (date : Option String) (cur : List String) : List String :=
  match date with
  | none => cur
  | some d => if d = "" then cur else d :: cur

/-- Client-side job object: the fields the unlock flow reads. -/
structure CJob where
  id : String
  publishDate : Option String
  contact : String
  deriving DecidableEq, Repr

/--
Client-side share-unlock flow, `filterModule.js` lines 384-434
(`userUtils.handleShareUnlock`).  The simulated share action can fail
(10 percent simulated failure rate); its outcome is the `shareOk` argument.
Returns the success flag together with the updated `unlockedDates`.
-/
def userUtils.handleShareUnlock (jobId : String) (jobs : List CJob)
    (unlockedDates : List String) (today : String) (shareOk : Bool) :
    Bool × List String :=
  match jobs.find? (fun j => j.id == jobId) with
  | none => (false, unlockedDates)
  | some job =>
    if userUtils.isDateUnlocked job.publishDate today unlockedDates then
      (true, unlockedDates)
    else if shareOk then
      (true, userUtils.unlockDate job.publishDate unlockedDates)
    else
      (false, unlockedDates)

/--
Store-level unlock check, `src/src/stores/jobStore.js` lines 642-645:
`date === today || state.unlockedDates[date] || false` with no falsy guard.
-/
def jobStore.isDateUnlocked (date : Option String) (today : String)
    (unlockedDates : List String) : Bool :=
  match date with
  | none => false
  | some d => d == today || unlockedDates.contains d

/--
Store-level share action, `jobStore.js` lines 656-677 (`shareJob`): look the
job up by id, unlock its publish date, report success; an unknown id reports
failure and leaves the unlock record unchanged.
-/
def jobStore.shareJob (jobs : List CJob) (unlockedDates : List String)
    (jobId : String) : Bool × List String :=
  match jobs.find? (fun j => j.id == jobId) with
  | none => (false, unlockedDates)
  | some job => (true, userUtils.unlockDate job.publishDate unlockedDates)

/--
Backend share record, the gating-relevant fields of the `shares` collection
schema in `src/backend/src/models/User.js` (schema defaults: `status = 1`,
`isValid = true`; `unlockDate` is a `YYYY-MM-DD` day string; `shareTime` a
timestamp, modelled as a natural number).
-/
structure ShareRecord where
  userId : String
  jobId : String
  shareType : String
  shareChannel : String
  shareTime : Nat
  unlockDate : String
  status : Nat
  isValid : Bool
  deriving DecidableEq, Repr

/-- Key predicate of the compound unique index `(userId, jobId, unlockDate)`
declared at `User.js` line 514, also the `findOne` filter of `createShare`. -/
def shareKeyMatch (userId jobId day : String) (s : ShareRecord) : Bool :=
  s.userId == userId && s.jobId == jobId && s.unlockDate == day

/-- Filter document of the `findOne` in `checkUnlocked`: userId, jobId,
`unlockDate` equal to the current day, `status` 1 and `isValid` true. -/
def unlockedPred (userId jobId today : String) (s : ShareRecord) : Bool :=
  s.userId == userId && s.jobId == jobId && s.unlockDate == today &&
  s.status == 1 && s.isValid

/--
Backend unlock query, `User.js` lines 587-599 (`shareSchema.statics.checkUnlocked`):
a `findOne` on userId, jobId, `unlockDate` equal to the current day, `status`
1 and `isValid` true; the result is coerced to a boolean.  The current day is
passed explicitly as `today`.
-/
def Share.checkUnlocked (shares : List ShareRecord) (userId jobId today : String) : Bool :=
  (shares.find? (unlockedPred userId jobId today)).isSome

/-- Update of the first record matching a predicate, modelling a mongoose
`save` on the document returned by `findOne`. -/
def updateFirst (p : ShareRecord → Bool) (f : ShareRecord → ShareRecord) :
    List ShareRecord → List ShareRecord
  | [] => []
  | s :: rest => if p s then f s :: rest else s :: updateFirst p f rest

/-- Metadata refresh applied by `createShare` when a record for the key
already exists: `shareType`, `shareChannel` and `shareTime` are overwritten. -/
def refreshShareMeta (shareType shareChannel : String) (now : Nat)
    (s : ShareRecord) : ShareRecord :=
  { s with shareType := shareType, shareChannel := shareChannel, shareTime := now }

/--
Backend unlock write, `User.js` lines 602-632 (`shareSchema.statics.createShare`):
find a record for `(userId, jobId, today)`; when present refresh its share
metadata and save it, otherwise insert a fresh record with `unlockDate` set to
the current day.  Returns the record handed back to the caller together with
the updated collection.
-/
def Share.createShare (shares : List ShareRecord)
    (userId jobId shareType shareChannel today : String) (now : Nat) :
    ShareRecord × List ShareRecord :=
  match shares.find? (shareKeyMatch userId jobId today) with
  | some existing =>
    (refreshShareMeta shareType shareChannel now existing,
     updateFirst (shareKeyMatch userId jobId today)
       (refreshShareMeta shareType shareChannel now) shares)
  | none =>
    let created : ShareRecord :=
      { userId := userId, jobId := jobId, shareType := shareType,
        shareChannel := shareChannel, shareTime := now, unlockDate := today,
        status := 1, isValid := true }
    (created, shares ++ [created])

/-- Backend job object: the fields the gating controllers read.  The
`publishDay` field is the canonical day string of `publishTime`; `none` models
a missing or unparseable publish time. -/
structure Job where
  id : String
  publishDay : Option String
  contact : String
  contactPerson : String
  status : Nat
  reviewStatus : Nat
  deriving DecidableEq, Repr

/-- Error taxonomy of the backend middleware relevant to the unlock routes. -/
inductive ApiError where
  | validationError : ApiError
  | notFoundError : ApiError
  deriving DecidableEq, Repr

/-- Lookup used by the controllers: `Job.findById`. -/
def findJob (jobs : List Job) (jobId : String) : Option Job :=
  jobs.find? (fun j => j.id == jobId)

/-- Visibility precondition checked by every unlock controller:
`job.status === 1 && job.reviewStatus === 1`. -/
def jobVisible (j : Job) : Bool :=
  j.status == 1 && j.reviewStatus == 1

/-- Joi validation of the `shareType` field of `POST /shares/unlock`. -/
def validShareType (t : String) : Bool :=
  t == "wechat" || t == "timeline" || t == "poster" || t == "link"

/-- Response shape of `POST /shares/unlock`: `shareId` is `null` when the item
was free because it was published today; `unlockDate` echoes the created
record. -/
structure UnlockResponse where
  unlocked : Bool
  share : Option ShareRecord
  unlockDate : Option String
  deriving DecidableEq, Repr

/--
Unlock controller, share controller lines 58-130 (`unlockJob`): validate,
look the job up, reject invisible jobs, answer immediately for items published
today without touching the share collection, otherwise create the share record
for the current day.
-/
def shareController.unlockJob (jobs : List Job) (shares : List ShareRecord)
    (userId jobId shareType shareChannel today : String) (now : Nat) :
    Except ApiError (UnlockResponse × List ShareRecord) :=
  if jobId = "" then .error .validationError
  else if !validShareType shareType then .error .validationError
  else
    match findJob jobs jobId with
    | none => .error .notFoundError
    | some job =>
      if !jobVisible job then .error .notFoundError
      else if isToday job.publishDay today then
        .ok ({ unlocked := true, share := none, unlockDate := none }, shares)
      else
        let r := Share.createShare shares userId jobId shareType shareChannel today now
        .ok ({ unlocked := true, share := some r.1, unlockDate := some r.1.unlockDate }, r.2)

/-- Response shape of `POST /shares/check`. -/
structure CheckResponse where
  unlocked : Bool
  needShare : Bool
  isToday : Bool
  deriving DecidableEq, Repr

/--
Unlock-status controller, share controller lines 135-188 (`checkUnlockStatus`):
items published today are reported unlocked before the cache or the share
collection is consulted; for other items the Redis cache value (`cached`,
`none` when absent) is used when present, the collection query otherwise.
-/
def shareController.checkUnlockStatus (jobs : List Job) (shares : List ShareRecord)
    (cached : Option Bool) (userId jobId today : String) :
    Except ApiError CheckResponse :=
  if jobId = "" then .error .validationError
  else
    match findJob jobs jobId with
    | none => .error .notFoundError
    | some job =>
      if !jobVisible job then .error .notFoundError
      else if isToday job.publishDay today then
        .ok { unlocked := true, needShare := false, isToday := true }
      else
        let u := match cached with
          | some b => b
          | none => Share.checkUnlocked shares userId jobId today
        .ok { unlocked := u, needShare := !u, isToday := false }

/-- Detail payload of `GET /jobs/:id` restricted to the gating-relevant
fields: the contact fields are `none` exactly when the controller deleted
them from the response object. -/
structure JobDetail where
  isToday : Bool
  needShareToUnlock : Bool
  isUnlocked : Bool
  contact : Option String
  contactPerson : Option String
  deriving DecidableEq, Repr

/--
Detail controller, `src/backend/src/controllers/adminController.js` lines
1229-1288 (`getJobDetail`): compute the today flag, consult the share
collection only for non-today items with an authenticated user, and delete
the contact fields from the payload when access is not granted.
-/
def adminController.getJobDetail (jobs : List Job) (shares : List ShareRecord)
    (user : Option String) (jobId today : String) :
    Except ApiError JobDetail :=
  match findJob jobs jobId with
  | none => .error .notFoundError
  | some job =>
    if !jobVisible job then .error .notFoundError
    else
      let todayFlag := isToday job.publishDay today
      let includeContact :=
        if todayFlag then true
        else
          match user with
          | some u => Share.checkUnlocked shares u jobId today
          | none => false
      .ok { isToday := todayFlag,
            needShareToUnlock := !todayFlag,
            isUnlocked := includeContact,
            contact := if includeContact then some job.contact else none,
            contactPerson := if includeContact then some job.contactPerson else none }

/--
Mobile-number test of the regex `1[3-9]` followed by nine digits, anchored at
both ends, used by `detailUtils.maskContact` (branch one, together with the
length-11 check).
-/
def isValidMobile (s : String) : Bool :=
  match s.data with
  | c0 :: c1 :: rest =>
    c0 == '1' && decide ('3' ≤ c1) && decide (c1 ≤ '9') && rest.length == 9 &&
    rest.all Char.isDigit
  | _ => false

/-- Landline mask of `detailUtils.maskContact`: a digit immediately followed
by two digits is replaced by a star (global regex replace with lookahead). -/
def maskLandlineDigits : List Char → List Char
  | [] => []
  | c :: rest =>
    (if c.isDigit && twoDigitsAhead rest then '*' else c) :: maskLandlineDigits rest
where
  twoDigitsAhead : List Char → Bool
    | a :: b :: _ => a.isDigit && b.isDigit
    | _ => false

/-- Fallback mask of `detailUtils.maskContact` for other contact formats
longer than four characters: keep two leading and two trailing characters and
star the middle. -/
def maskContactOther (contact : String) : String :=
  if contact.length > 4 then
    String.mk (contact.data.take 2 ++
      List.replicate (contact.length - 4) '*' ++
      contact.data.drop (contact.length - 2))
  else contact

/--
Contact mask of `src/src/pages/detail/utils/detailUtils.js` lines 79-105
(`maskContact`): empty input maps to the empty string; a valid 11-digit mobile
number keeps its first three and last four digits with four stars between; a
two-part dashed number with a long enough extension gets its extension digits
starred except the last two; other long values keep two characters at each end.
The branch for dashed input falls through to the generic branch when the split
does not give exactly two parts or the extension is short, as in the source.
-/
def maskContact (contact : String) : String :=
  if contact = "" then ""
  else if contact.length == 11 && isValidMobile contact then
    String.mk (contact.data.take 3 ++ ['*', '*', '*', '*'] ++ contact.data.drop 7)
  else if contact.data.contains '-' then
    match contact.splitOn "-" with
    | [p0, p1] =>
      if p1.length ≥ 4 then p0 ++ "-" ++ String.mk (maskLandlineDigits p1.data)
      else maskContactOther contact
    | _ => maskContactOther contact
  else maskContactOther contact

/--
Contact mask of `src/src/components/JobCard.jsx` lines 26-31: empty input maps
to the empty string; an 11-character value is passed through the regex replace
`(three digits)(four digits)(four digits)`, which rewrites it to three digits,
four stars and four digits exactly when the whole value is numeric, and leaves
it unchanged otherwise; every other value is returned as is.
-/
def JobCard.maskContact (contact : String) : String :=
  if contact = "" then ""
  else if contact.length == 11 then
    if contact.data.all Char.isDigit then
      String.mk (contact.data.take 3 ++ ['*', '*', '*', '*'] ++ contact.data.drop 7)
    else contact
  else contact

/--
Phone mask of the shared phone utilities (`src/unnamed/part_009` lines 91-105,
`maskPhone`): strip non-digits, return the raw input when fewer digits remain
than the kept head and tail, otherwise keep `startKeep` leading and `endKeep`
trailing digits and star the middle.  A zero `endKeep` reproduces the JS
`slice(-0)` quirk of keeping the whole digit string as the tail.
-/
def maskPhone (phone : String) (startKeep endKeep : Nat) : String :=
  if phone = "" then ""
  else
    let cleanPhone := phone.data.filter Char.isDigit
    if cleanPhone.length < startKeep + endKeep then phone
    else
      let tail := if endKeep = 0 then cleanPhone
        else cleanPhone.drop (cleanPhone.length - endKeep)
      String.mk (cleanPhone.take startKeep ++
        List.replicate (cleanPhone.length - startKeep - endKeep) '*' ++ tail)

/-
Interleaving model of concurrent `createShare` executions for one
`(userId, jobId, unlockDate)` key.  Each writer runs the two observable steps
of `createShare`: the `findOne` read, then the `save` write.  The write of a
fresh document goes through the unique compound index of `User.js` line 514,
so an insert that collides with an existing record for the key fails with a
duplicate-key error instead of storing a second record.
-/

/-- Outcome of one unlock attempt in the interleaving model. -/
inductive WriterOutcome where
  | pending : WriterOutcome
  | okShare : ShareRecord → WriterOutcome
  | duplicateKeyError : WriterOutcome
  deriving DecidableEq, Repr

/-- Local state of one writer: program counter (0 before the read, 1 between
read and write, 2 done), the read result, and the outcome. -/
structure WriterState where
  pc : Nat
  found : Option ShareRecord
  outcome : WriterOutcome
  deriving DecidableEq, Repr

/-- Per-writer request payload. -/
structure WriterInput where
  shareType : String
  shareChannel : String
  now : Nat
  deriving DecidableEq, Repr

/-- Shared state of the two-writer race: the `shares` collection and both
writer states. -/
structure RaceState where
  store : List ShareRecord
  w1 : WriterState
  w2 : WriterState
  deriving DecidableEq, Repr

/-- Writer state before any step has run. -/
def initialWriter : WriterState :=
  { pc := 0, found := none, outcome := .pending }

/--
One step of one writer of the `createShare` race.  Step 0 performs the
`findOne`; step 1 performs the `save`: a refresh of the found record, or an
insert that the unique index rejects when a record for the key already exists.
-/
def writerStep (userId jobId today : String) (inp : WriterInput)
    (store : List ShareRecord) (w : WriterState) :
    List ShareRecord × WriterState :=
  match w.pc with
  | 0 =>
    (store, { w with pc := 1, found := store.find? (shareKeyMatch userId jobId today) })
  | 1 =>
    match w.found with
    | some existing =>
      (updateFirst (shareKeyMatch userId jobId today)
         (refreshShareMeta inp.shareType inp.shareChannel inp.now) store,
       { w with pc := 2,
                outcome := .okShare (refreshShareMeta inp.shareType inp.shareChannel inp.now existing) })
    | none =>
      if (store.find? (shareKeyMatch userId jobId today)).isSome then
        (store, { w with pc := 2, outcome := .duplicateKeyError })
      else
        let created : ShareRecord :=
          { userId := userId, jobId := jobId, shareType := inp.shareType,
            shareChannel := inp.shareChannel, shareTime := inp.now,
            unlockDate := today, status := 1, isValid := true }
        (store ++ [created], { w with pc := 2, outcome := .okShare created })
  | _ + 2 => (store, w)

/-- One scheduler step: `true` advances writer one, `false` writer two. -/
def raceStep (userId jobId today : String) (inp1 inp2 : WriterInput)
    (st : RaceState) (who : Bool) : RaceState :=
  if who then
    let r := writerStep userId jobId today inp1 st.store st.w1
    { st with store := r.1, w1 := r.2 }
  else
    let r := writerStep userId jobId today inp2 st.store st.w2
    { st with store := r.1, w2 := r.2 }

/-- Run of a schedule, a list of writer choices. -/
def raceRun (userId jobId today : String) (inp1 inp2 : WriterInput)
    (sched : List Bool) (st : RaceState) : RaceState :=
  match sched with
  | [] => st
  | who :: rest =>
    raceRun userId jobId today inp1 inp2 rest (raceStep userId jobId today inp1 inp2 st who)

/-- Number of stored records for one `(userId, jobId, unlockDate)` key. -/
def countKey (userId jobId day : String) (shares : List ShareRecord) : Nat :=
  (shares.filter (shareKeyMatch userId jobId day)).length

/-
Concrete fixtures for the counterexamples and witnesses: two published,
approved backend jobs sharing publish day 2024-01-01, evaluated on current
day 2024-01-03, one job published on the current day, one job with a missing
publish day, their client-side counterparts, and the share record the unlock
flow creates.
-/

/-- Fixture: approved historical job A, published 2024-01-01. -/
def jobA : Job :=
  { id := "jA", publishDay := some "2024-01-01", contact := "13812345678",
    contactPerson := "Wang", status := 1, reviewStatus := 1 }

/-- Fixture: approved historical job B, same publish day as job A. -/
def jobB : Job :=
  { id := "jB", publishDay := some "2024-01-01", contact := "13900001111",
    contactPerson := "Li", status := 1, reviewStatus := 1 }

/-- Fixture: approved job published on the current day 2024-01-03. -/
def jobToday : Job :=
  { id := "jT", publishDay := some "2024-01-03", contact := "13700002222",
    contactPerson := "Zhao", status := 1, reviewStatus := 1 }

/-- Fixture: approved job whose publish day is missing. -/
def jobNoDay : Job :=
  { id := "jN", publishDay := none, contact := "13600003333",
    contactPerson := "Qian", status := 1, reviewStatus := 1 }

/-- Fixture: the share record created by unlocking job A for user u1 on
2024-01-03 with share type wechat at timestamp 100. -/
def recA : ShareRecord :=
  { userId := "u1", jobId := "jA", shareType := "wechat",
    shareChannel := "friend", shareTime := 100, unlockDate := "2024-01-03",
    status := 1, isValid := true }

/-- Fixture: an expired share record for the same user, job and day, with
`status` 2 and `isValid` false as written by `checkValidity`. -/
def recExpired : ShareRecord :=
  { userId := "u1", jobId := "jA", shareType := "wechat",
    shareChannel := "friend", shareTime := 100, unlockDate := "2024-01-03",
    status := 2, isValid := false }

/-- Fixture: client-side counterpart of job A. -/
def cjA : CJob :=
  { id := "jA", publishDate := some "2024-01-01", contact := "13812345678" }

/-- Fixture: client-side counterpart of job B. -/
def cjB : CJob :=
  { id := "jB", publishDate := some "2024-01-01", contact := "13900001111" }

/-- Fixture: request payload of the first racing writer. -/
def inpW1 : WriterInput :=
  { shareType := "wechat", shareChannel := "friend", now := 100 }

/-- Fixture: request payload of the second racing writer. -/
def inpW2 : WriterInput :=
  { shareType := "timeline", shareChannel := "friend", now := 200 }

/-- Fixture: race starting state with an empty collection. -/
def raceInit : RaceState :=
  { store := [], w1 := initialWriter, w2 := initialWriter }

/-
Helper lemmas.
-/

/-- Refreshing share metadata does not change the unique-index key fields. -/
theorem shareKeyMatch_refresh (u j d st sc : String) (n : Nat) (s : ShareRecord) :
    shareKeyMatch u j d (refreshShareMeta st sc n s) = shareKeyMatch u j d s := rfl

/-- Refreshing share metadata does not change the fields read by the
`checkUnlocked` filter. -/
theorem unlockedPred_refresh (u j d st sc : String) (n : Nat) (s : ShareRecord) :
    unlockedPred u j d (refreshShareMeta st sc n s) = unlockedPred u j d s := rfl

/-- Updating one record with a function that preserves a predicate preserves
presence of a record satisfying that predicate. -/
theorem find?_isSome_updateFirst (p q : ShareRecord → Bool)
    (f : ShareRecord → ShareRecord) (hf : ∀ s, p (f s) = p s)
    (l : List ShareRecord) :
    ((updateFirst q f l).find? p).isSome = (l.find? p).isSome := by
  induction l with
  | nil => rfl
  | cons s rest ih =>
    by_cases hq : q s = true
    · simp only [updateFirst, if_pos hq, List.find?_cons]
      rw [hf s]
      cases hp : p s <;> simp
    · simp only [updateFirst, if_neg hq, List.find?_cons]
      cases hp : p s <;> simp [ih]

/-- Updating one record with a function that preserves a predicate preserves
the number of records satisfying that predicate. -/
theorem length_filter_updateFirst (p q : ShareRecord → Bool)
    (f : ShareRecord → ShareRecord) (hf : ∀ s, p (f s) = p s)
    (l : List ShareRecord) :
    ((updateFirst q f l).filter p).length = (l.filter p).length := by
  induction l with
  | nil => rfl
  | cons s rest ih =>
    by_cases hq : q s = true
    · simp only [updateFirst, if_pos hq, List.filter_cons]
      rw [hf s]
      cases hp : p s <;> simp
    · simp only [updateFirst, if_neg hq, List.filter_cons]
      cases hp : p s <;> simp [ih]

/-- Membership characterization of the backend unlock query. -/
theorem checkUnlocked_iff (shares : List ShareRecord) (u j d : String) :
    Share.checkUnlocked shares u j d = true ↔
      ∃ s ∈ shares, s.userId = u ∧ s.jobId = j ∧ s.unlockDate = d ∧
        s.status = 1 ∧ s.isValid = true := by
  simp only [Share.checkUnlocked, List.find?_isSome, unlockedPred,
    Bool.and_eq_true, beq_iff_eq]
  constructor
  · rintro ⟨s, hs, ⟨⟨⟨h1, h2⟩, h3⟩, h4⟩, h5⟩
    exact ⟨s, hs, h1, h2, h3, h4, h5⟩
  · rintro ⟨s, hs, h1, h2, h3, h4, h5⟩
    exact ⟨s, hs, ⟨⟨⟨h1, h2⟩, h3⟩, h4⟩, h5⟩

/-- Key and metadata fields of the record handed back by `createShare`: the
key carries the requested user, job and current day, and the metadata carries
the requested share type, channel and timestamp, in both branches. -/
theorem createShare_fst_fields (shares : List ShareRecord)
    (u j st sc d : String) (n : Nat) :
    (Share.createShare shares u j st sc d n).1.userId = u ∧
    (Share.createShare shares u j st sc d n).1.jobId = j ∧
    (Share.createShare shares u j st sc d n).1.unlockDate = d ∧
    (Share.createShare shares u j st sc d n).1.shareType = st ∧
    (Share.createShare shares u j st sc d n).1.shareChannel = sc ∧
    (Share.createShare shares u j st sc d n).1.shareTime = n := by
  unfold Share.createShare
  cases hfind : shares.find? (shareKeyMatch u j d) with
  | none => simp
  | some s =>
    have hp := List.find?_some hfind
    simp only [shareKeyMatch, Bool.and_eq_true, beq_iff_eq] at hp
    simp [refreshShareMeta, hp.1.1, hp.1.2, hp.2]

/-- A `createShare` call on a collection holding at most one record for the
key leaves exactly one record for the key. -/
theorem countKey_createShare (shares : List ShareRecord)
    (u j st sc d : String) (n : Nat) (h : countKey u j d shares ≤ 1) :
    countKey u j d (Share.createShare shares u j st sc d n).2 = 1 := by
  unfold Share.createShare
  cases hfind : shares.find? (shareKeyMatch u j d) with
  | none =>
    have hall : ∀ x ∈ shares, ¬ shareKeyMatch u j d x = true :=
      List.find?_eq_none.mp hfind
    have hnil : shares.filter (shareKeyMatch u j d) = [] :=
      List.filter_eq_nil_iff.mpr hall
    simp [countKey, hnil, shareKeyMatch]
  | some s =>
    have hmem : s ∈ shares := List.mem_of_find?_eq_some hfind
    have hp : shareKeyMatch u j d s = true := List.find?_some hfind
    have hone : 1 ≤ countKey u j d shares := by
      have hmf : s ∈ shares.filter (shareKeyMatch u j d) :=
        List.mem_filter.mpr ⟨hmem, hp⟩
      have := List.length_pos.mpr (List.ne_nil_of_mem hmf)
      simpa [countKey] using this
    have heq : countKey u j d
        (updateFirst (shareKeyMatch u j d) (refreshShareMeta st sc n) shares) =
        countKey u j d shares := by
      simpa [countKey] using
        length_filter_updateFirst (shareKeyMatch u j d) (shareKeyMatch u j d)
          (refreshShareMeta st sc n) (fun t => shareKeyMatch_refresh u j d st sc n t) shares
    simp only
    omega

/-- The unlock query for a day other than the day a `createShare` call wrote
is unaffected by that call. -/
theorem checkUnlocked_createShare_ne (shares : List ShareRecord)
    (u j st sc d d' : String) (n : Nat) (hne : d' ≠ d) :
    Share.checkUnlocked (Share.createShare shares u j st sc d n).2 u j d' =
      Share.checkUnlocked shares u j d' := by
  unfold Share.createShare
  cases hfind : shares.find? (shareKeyMatch u j d) with
  | some s =>
    simpa using
      find?_isSome_updateFirst (unlockedPred u j d') (shareKeyMatch u j d)
        (refreshShareMeta st sc n) (fun t => unlockedPred_refresh u j d' st sc n t) shares
  | none =>
    simp only
    rw [Bool.eq_iff_iff, checkUnlocked_iff, checkUnlocked_iff]
    constructor
    · rintro ⟨s, hs, h1, h2, h3, h4, h5⟩
      rcases List.mem_append.mp hs with hmem | hmem
      · exact ⟨s, hmem, h1, h2, h3, h4, h5⟩
      · rw [List.mem_singleton] at hmem
        subst hmem
        simp only at h3
        exact absurd h3.symm hne
    · rintro ⟨s, hs, h1, h2, h3, h4, h5⟩
      exact ⟨s, List.mem_append_left _ hs, h1, h2, h3, h4, h5⟩

/--
Claim C1: for every content item whose publish day equals the current day and
every requesting identity, both the unlock-status endpoint and the detail
fetch report the item unlocked with no share needed; the share collection,
the cache value and the user are universally quantified and absent from the
result, so the ledger contents never affect the outcome for today items.
-/
theorem claim1_today_items_ignore_ledger
    (jobs : List Job) (shares : List ShareRecord) (cached : Option Bool)
    (userId jobId today : String) (user : Option String) (job : Job)
    (hid : jobId ≠ "")
    (hfind : findJob jobs jobId = some job)
    (hvis : jobVisible job = true)
    (hday : job.publishDay = some today)
    (hne : today ≠ "") :
    shareController.checkUnlockStatus jobs shares cached userId jobId today =
      .ok { unlocked := true, needShare := false, isToday := true } ∧
    adminController.getJobDetail jobs shares user jobId today =
      .ok { isToday := true, needShareToUnlock := false, isUnlocked := true,
            contact := some job.contact, contactPerson := some job.contactPerson } := by
  constructor
  · unfold shareController.checkUnlockStatus
    rw [if_neg hid, hfind]
    simp [hvis, isToday, hday, hne]
  · unfold adminController.getJobDetail
    rw [hfind]
    simp [hvis, isToday, hday, hne]

/-- Closed witness for claim 1: the fixture job published on the current day
is reported unlocked by both endpoints even with a stale negative cache entry
and a foreign share record in the ledger. -/
theorem claim1_witness :
    shareController.checkUnlockStatus [jobToday] [recA] (some false) "u9" "jT" "2024-01-03" =
      .ok { unlocked := true, needShare := false, isToday := true } ∧
    adminController.getJobDetail [jobToday] [recA] none "jT" "2024-01-03" =
      .ok { isToday := true, needShareToUnlock := false, isUnlocked := true,
            contact := some jobToday.contact, contactPerson := some jobToday.contactPerson } :=
  claim1_today_items_ignore_ledger [jobToday] [recA] (some false) "u9" "jT" "2024-01-03"
    none jobToday (by decide) rfl rfl rfl (by decide)

/--
Claim C2 counterexample: in the backend, unlocking job A does not unlock job
B sharing the same publish day.  On current day 2024-01-03, user u1 unlocks
job A (published 2024-01-01), creating the fixture record; yet the unlock
query and the detail fetch for job B (also published 2024-01-01) still report
locked, with the contact fields deleted.
-/
theorem claim2_counterexample :
    shareController.unlockJob [jobA, jobB] [] "u1" "jA" "wechat" "friend" "2024-01-03" 100 =
      .ok ({ unlocked := true, share := some recA, unlockDate := some "2024-01-03" }, [recA]) ∧
    Share.checkUnlocked [recA] "u1" "jB" "2024-01-03" = false ∧
    adminController.getJobDetail [jobA, jobB] [recA] (some "u1") "jB" "2024-01-03" =
      .ok { isToday := false, needShareToUnlock := true, isUnlocked := false,
            contact := none, contactPerson := none } :=
  ⟨rfl, rfl, rfl⟩

/--
Claim C2 amended: in the client-side store, unlock is day-scoped.  Sharing
item A marks the publish date of A unlocked, so every item B with the same
publish date also resolves unlocked, under both store unlock checks.
-/
theorem claim2_client_day_scoped
    (jobs : List CJob) (unlockedDates : List String) (A B : CJob) (d today : String)
    (hA : jobs.find? (fun j => j.id == A.id) = some A)
    (hAd : A.publishDate = some d)
    (hBd : B.publishDate = some d)
    (hd : d ≠ "") :
    (jobStore.shareJob jobs unlockedDates A.id).1 = true ∧
    jobStore.isDateUnlocked B.publishDate today
      (jobStore.shareJob jobs unlockedDates A.id).2 = true ∧
    userUtils.isDateUnlocked B.publishDate today
      (jobStore.shareJob jobs unlockedDates A.id).2 = true := by
  have hshare : jobStore.shareJob jobs unlockedDates A.id = (true, d :: unlockedDates) := by
    unfold jobStore.shareJob
    rw [hA]
    simp [userUtils.unlockDate, hAd, hd]
  rw [hshare]
  refine ⟨rfl, ?_, ?_⟩
  · simp [jobStore.isDateUnlocked, hBd]
  · unfold userUtils.isDateUnlocked
    rw [hBd]
    simp only [if_neg hd]
    split <;> simp

/-- Closed witness for claim 2 amended: sharing the client fixture job A
unlocks the client fixture job B published on the same day. -/
theorem claim2_witness :
    (jobStore.shareJob [cjA, cjB] [] cjA.id).1 = true ∧
    jobStore.isDateUnlocked cjB.publishDate "2024-01-03"
      (jobStore.shareJob [cjA, cjB] [] cjA.id).2 = true ∧
    userUtils.isDateUnlocked cjB.publishDate "2024-01-03"
      (jobStore.shareJob [cjA, cjB] [] cjA.id).2 = true :=
  claim2_client_day_scoped [cjA, cjB] [] cjA cjB "2024-01-01" "2024-01-03"
    rfl rfl rfl (by decide)

/--
Claim C3 counterexample: unlocking the fixture job published 2024-01-01 on
current day 2024-01-03 creates a record whose `unlockDate` is 2024-01-03, the
day the share happened, not the publish day of the item.
-/
theorem claim3_counterexample :
    shareController.unlockJob [jobA, jobB] [] "u1" "jA" "wechat" "friend" "2024-01-03" 100 =
      .ok ({ unlocked := true, share := some recA, unlockDate := some "2024-01-03" }, [recA]) ∧
    recA.unlockDate = "2024-01-03" ∧
    jobA.publishDay = some "2024-01-01" ∧
    recA.unlockDate ≠ "2024-01-01" :=
  ⟨rfl, rfl, rfl, by decide⟩

/--
Claim C3 amended: whenever the unlock endpoint returns a created share
record, the `unlockDate` stored in that record is the current calendar day on
which the share action happened, whatever the publish day of the item.
-/
theorem claim3_unlock_records_share_day
    (jobs : List Job) (shares : List ShareRecord)
    (userId jobId shareType shareChannel today : String) (now : Nat)
    (resp : UnlockResponse) (shares2 : List ShareRecord) (rec : ShareRecord)
    (h : shareController.unlockJob jobs shares userId jobId shareType shareChannel today now =
      .ok (resp, shares2))
    (hrec : resp.share = some rec) :
    rec.unlockDate = today := by
  unfold shareController.unlockJob at h
  split at h
  · cases h
  split at h
  · cases h
  split at h
  · cases h
  rename_i job hfind
  split at h
  · cases h
  split at h
  · simp only [Except.ok.injEq, Prod.mk.injEq] at h
    rw [← h.1] at hrec
    cases hrec
  · simp only [Except.ok.injEq, Prod.mk.injEq] at h
    rw [← h.1] at hrec
    simp only [Option.some.injEq] at hrec
    rw [← hrec]
    exact (createShare_fst_fields shares userId jobId shareType shareChannel today now).2.2.1

/-- Closed witness for claim 3 amended: the record created by the fixture
unlock stores the share day 2024-01-03. -/
theorem claim3_witness :
    recA.unlockDate = "2024-01-03" :=
  claim3_unlock_records_share_day [jobA, jobB] [] "u1" "jA" "wechat" "friend" "2024-01-03" 100
    { unlocked := true, share := some recA, unlockDate := some "2024-01-03" } [recA] recA
    rfl rfl

/--
Claim C4 counterexample: a second `createShare` call for the same key does
not return the existing record unchanged.  After the first call stores the
fixture record with share type wechat and timestamp 100, a second call with
share type timeline and timestamp 200 returns a record differing from the
stored one, with the refreshed timestamp.
-/
theorem claim4_counterexample :
    Share.createShare [] "u1" "jA" "wechat" "friend" "2024-01-03" 100 = (recA, [recA]) ∧
    (Share.createShare [recA] "u1" "jA" "timeline" "friend" "2024-01-03" 200).1 ≠ recA ∧
    (Share.createShare [recA] "u1" "jA" "timeline" "friend" "2024-01-03" 200).1.shareTime = 200 :=
  ⟨rfl, by decide, rfl⟩

/--
Claim C4 amended: two consecutive `createShare` calls for the same
`(userId, jobId, day)` key leave exactly one stored record for the key when
the collection started with at most one (as the unique index guarantees);
both calls hand back a record carrying the key, and the second call returns
the existing record with its share metadata refreshed to the second request
rather than unchanged.
-/
theorem claim4_create_share_idempotent (shares : List ShareRecord)
    (u j st1 sc1 st2 sc2 d : String) (n1 n2 : Nat)
    (hcount : countKey u j d shares ≤ 1) :
    countKey u j d
      (Share.createShare (Share.createShare shares u j st1 sc1 d n1).2 u j st2 sc2 d n2).2 = 1 ∧
    (Share.createShare shares u j st1 sc1 d n1).1.userId = u ∧
    (Share.createShare shares u j st1 sc1 d n1).1.jobId = j ∧
    (Share.createShare shares u j st1 sc1 d n1).1.unlockDate = d ∧
    (Share.createShare (Share.createShare shares u j st1 sc1 d n1).2 u j st2 sc2 d n2).1.userId = u ∧
    (Share.createShare (Share.createShare shares u j st1 sc1 d n1).2 u j st2 sc2 d n2).1.jobId = j ∧
    (Share.createShare (Share.createShare shares u j st1 sc1 d n1).2 u j st2 sc2 d n2).1.unlockDate = d ∧
    (Share.createShare (Share.createShare shares u j st1 sc1 d n1).2 u j st2 sc2 d n2).1.shareType = st2 ∧
    (Share.createShare (Share.createShare shares u j st1 sc1 d n1).2 u j st2 sc2 d n2).1.shareTime = n2 := by
  have h1 := countKey_createShare shares u j st1 sc1 d n1 hcount
  have hfst1 := createShare_fst_fields shares u j st1 sc1 d n1
  have hfst2 := createShare_fst_fields (Share.createShare shares u j st1 sc1 d n1).2 u j st2 sc2 d n2
  exact ⟨countKey_createShare _ u j st2 sc2 d n2 (le_of_eq h1),
    hfst1.1, hfst1.2.1, hfst1.2.2.1,
    hfst2.1, hfst2.2.1, hfst2.2.2.1, hfst2.2.2.2.1, hfst2.2.2.2.2.2⟩

/-- Closed witness for claim 4 amended: two fixture unlock calls leave one
record, and the second call carries the refreshed timestamp. -/
theorem claim4_witness :
    countKey "u1" "jA" "2024-01-03"
      (Share.createShare (Share.createShare [] "u1" "jA" "wechat" "friend" "2024-01-03" 100).2
        "u1" "jA" "timeline" "friend" "2024-01-03" 200).2 = 1 ∧
    (Share.createShare (Share.createShare [] "u1" "jA" "wechat" "friend" "2024-01-03" 100).2
      "u1" "jA" "timeline" "friend" "2024-01-03" 200).1.shareTime = 200 :=
  ⟨(claim4_create_share_idempotent [] "u1" "jA" "wechat" "friend" "timeline" "friend"
      "2024-01-03" 100 200 (by decide)).1,
   (claim4_create_share_idempotent [] "u1" "jA" "wechat" "friend" "timeline" "friend"
      "2024-01-03" 100 200 (by decide)).2.2.2.2.2.2.2.2⟩

/--
Claim C5 counterexample: the locked detail payload does not contain masked
contact fields; the controller deletes them.  For the fixture historical job
with no unlock record, the detail fetch returns the contact fields absent,
not the starred form the client mask would produce.
-/
theorem claim5_counterexample :
    adminController.getJobDetail [jobA, jobB] [] (some "u1") "jA" "2024-01-03" =
      .ok { isToday := false, needShareToUnlock := true, isUnlocked := false,
            contact := none, contactPerson := none } ∧
    (none : Option String) ≠ some (maskContact jobA.contact) ∧
    maskContact jobA.contact = "138****5678" :=
  ⟨rfl, by decide, by decide⟩

/--
Claim C5 amended: for every item that resolves as locked (publish day not
today and no unlock record for the requesting user), the backend detail
deletes the contact fields from the payload; the masked preview shown by the
UI is produced client-side by `maskContact`, not by the server.
-/
theorem claim5_locked_detail_omits_contact
    (jobs : List Job) (shares : List ShareRecord) (user : Option String)
    (jobId today : String) (job : Job)
    (hfind : findJob jobs jobId = some job)
    (hvis : jobVisible job = true)
    (hnotToday : isToday job.publishDay today = false)
    (hnotUnlocked : ∀ u, user = some u → Share.checkUnlocked shares u jobId today = false) :
    adminController.getJobDetail jobs shares user jobId today =
      .ok { isToday := false, needShareToUnlock := true, isUnlocked := false,
            contact := none, contactPerson := none } := by
  unfold adminController.getJobDetail
  rw [hfind]
  cases user with
  | none => simp [hvis, hnotToday]
  | some u => simp [hvis, hnotToday, hnotUnlocked u rfl]

/-- Closed witness for claim 5 amended: the locked fixture detail omits both
contact fields. -/
theorem claim5_witness :
    adminController.getJobDetail [jobA] [] (some "u1") "jA" "2024-01-03" =
      .ok { isToday := false, needShareToUnlock := true, isUnlocked := false,
            contact := none, contactPerson := none } :=
  claim5_locked_detail_omits_contact [jobA] [] (some "u1") "jA" "2024-01-03" jobA
    rfl rfl (by decide) (fun u hu => by cases hu; rfl)

/--
Claim C6: the backend unlock query grants access exactly when a valid share
record for the user and job carries an `unlockDate` equal to the current
day, and a share written on day `d` leaves the query for any other day `d2`
unchanged, so an unlock stops granting access once the current day moves on.
-/
theorem claim6_unlock_valid_only_on_share_day
    (shares : List ShareRecord) (u j st sc d d2 : String) (n : Nat)
    (hne : d2 ≠ d) :
    (Share.checkUnlocked shares u j d = true ↔
      ∃ s ∈ shares, s.userId = u ∧ s.jobId = j ∧ s.unlockDate = d ∧
        s.status = 1 ∧ s.isValid = true) ∧
    Share.checkUnlocked (Share.createShare shares u j st sc d n).2 u j d2 =
      Share.checkUnlocked shares u j d2 :=
  ⟨checkUnlocked_iff shares u j d,
   checkUnlocked_createShare_ne shares u j st sc d d2 n hne⟩

/-- Closed witness for claim 6: the fixture share written on 2024-01-03
grants nothing on 2024-01-04, and the query answers true on 2024-01-03 for
the stored fixture record. -/
theorem claim6_witness :
    Share.checkUnlocked (Share.createShare [] "u1" "jA" "wechat" "friend" "2024-01-03" 100).2
      "u1" "jA" "2024-01-04" = Share.checkUnlocked [] "u1" "jA" "2024-01-04" ∧
    Share.checkUnlocked [recA] "u1" "jA" "2024-01-03" = true :=
  ⟨(claim6_unlock_valid_only_on_share_day [] "u1" "jA" "wechat" "friend"
      "2024-01-03" "2024-01-04" 100 (by decide)).2,
   (claim6_unlock_valid_only_on_share_day [recA] "u1" "jA" "wechat" "friend"
      "2024-01-03" "2024-01-04" 100 (by decide)).1.mpr
     ⟨recA, by simp, rfl, rfl, rfl, rfl, rfl⟩⟩

/-- Shape of a string accepted by the mobile-number regex: a leading one, a
second digit between three and nine, then nine digits. -/
theorem isValidMobile_shape (s : String) (h : isValidMobile s = true) :
    ∃ c0 c1 rest, s.data = c0 :: c1 :: rest ∧ c0 = '1' ∧ '3' ≤ c1 ∧ c1 ≤ '9' ∧
      rest.length = 9 ∧ (∀ c ∈ rest, c.isDigit = true) := by
  unfold isValidMobile at h
  cases hs : s.data with
  | nil => rw [hs] at h; cases h
  | cons c0 tl =>
    cases tl with
    | nil => rw [hs] at h; cases h
    | cons c1 rest =>
      rw [hs] at h
      simp only [Bool.and_eq_true, beq_iff_eq, decide_eq_true_eq, List.all_eq_true] at h
      exact ⟨c0, c1, rest, rfl, h.1.1.1.1, h.1.1.1.2, h.1.1.2, h.1.2, h.2⟩

/-- Every character of a valid mobile number is a digit. -/
theorem isValidMobile_digits (s : String) (h : isValidMobile s = true) :
    ∀ c ∈ s.data, c.isDigit = true := by
  obtain ⟨c0, c1, rest, hs, hc0, hlo, hhi, hlen, hdig⟩ := isValidMobile_shape s h
  intro c hc
  rw [hs] at hc
  rcases List.mem_cons.mp hc with h0 | hc
  · subst h0; subst hc0; decide
  rcases List.mem_cons.mp hc with h1 | hc
  · subst h1
    have hz : '0' ≤ c := le_trans (by decide) hlo
    simp [Char.isDigit]
    exact ⟨hz, hhi⟩
  · exact hdig c hc

/--
Claim C7: for every input accepted by the 11-digit mobile regex, the detail
mask keeps exactly the first three digits, inserts four stars and keeps the
last four digits; the output has the full length eleven (no truncation) and
differs from the raw input; the job-card mask and the shared phone mask with
the default keep widths produce the same masked value.
-/
theorem claim7_mask_valid_mobile (s : String) (h : isValidMobile s = true) :
    maskContact s = String.mk (s.data.take 3 ++ ['*', '*', '*', '*'] ++ s.data.drop 7) ∧
    (maskContact s).length = 11 ∧
    maskContact s ≠ s ∧
    JobCard.maskContact s = maskContact s ∧
    maskPhone s 3 4 = maskContact s := by
  obtain ⟨c0, c1, rest, hs, hc0, hlo, hhi, hlen, hdig⟩ := isValidMobile_shape s h
  have hdigall : ∀ c ∈ s.data, c.isDigit = true := isValidMobile_digits s h
  have hne : s ≠ "" := by
    intro he
    rw [he] at hs
    cases hs
  have hdata11 : s.data.length = 11 := by
    rw [hs]
    simp [hlen]
  have hlen11 : s.length = 11 := hdata11
  have hmask : maskContact s =
      String.mk (s.data.take 3 ++ ['*', '*', '*', '*'] ++ s.data.drop 7) := by
    unfold maskContact
    rw [if_neg hne]
    have hcond : (s.length == 11 && isValidMobile s) = true := by
      simp [hlen11, h]
    rw [if_pos hcond]
  refine ⟨hmask, ?_, ?_, ?_, ?_⟩
  · rw [hmask]
    show (s.data.take 3 ++ ['*', '*', '*', '*'] ++ s.data.drop 7).length = 11
    simp [List.length_take, List.length_drop, hdata11]
  · rw [hmask]
    intro he
    have hd := congrArg String.data he
    have hmem : '*' ∈ s.data := by
      rw [← hd]
      simp
    have := hdigall '*' hmem
    exact absurd this (by decide)
  · rw [hmask]
    unfold JobCard.maskContact
    rw [if_neg hne]
    have hl : (s.length == 11) = true := by simp [hlen11]
    rw [if_pos hl]
    have hall : s.data.all Char.isDigit = true := List.all_eq_true.mpr hdigall
    rw [if_pos hall]
  · rw [hmask]
    unfold maskPhone
    rw [if_neg hne]
    have hfilter : s.data.filter Char.isDigit = s.data := List.filter_eq_self.mpr hdigall
    simp only [hfilter, hdata11]
    norm_num
    rfl

/-- Closed witness for claim 7: the documented example phone number masks to
exactly the documented starred form and not to the raw input. -/
theorem claim7_witness :
    isValidMobile "13812345678" = true ∧
    maskContact "13812345678" = "138****5678" ∧
    maskContact "13812345678" ≠ "13812345678" := by
  refine ⟨by decide, ?_, ?_⟩
  · exact (claim7_mask_valid_mobile "13812345678" (by decide)).1.trans (by decide)
  · exact (claim7_mask_valid_mobile "13812345678" (by decide)).2.2.1

/-- One writer step keeps the store at no more than one record for the key:
the read leaves the store alone, the refreshing save preserves the count, and
the insert is guarded by the unique-index check. -/
theorem countKey_writerStep (u j d : String) (inp : WriterInput)
    (store : List ShareRecord) (w : WriterState)
    (h : countKey u j d store ≤ 1) :
    countKey u j d (writerStep u j d inp store w).1 ≤ 1 := by
  unfold writerStep
  cases hpc : w.pc with
  | zero => simpa using h
  | succ pc1 =>
    cases pc1 with
    | succ pc2 => simpa using h
    | zero =>
      cases hf : w.found with
      | some s =>
        have := length_filter_updateFirst (shareKeyMatch u j d) (shareKeyMatch u j d)
          (refreshShareMeta inp.shareType inp.shareChannel inp.now)
          (fun t => shareKeyMatch_refresh u j d inp.shareType inp.shareChannel inp.now t) store
        simpa [countKey, this] using h
      | none =>
        by_cases hdup : (store.find? (shareKeyMatch u j d)).isSome = true
        · simpa [hdup] using h
        · have hnone : store.find? (shareKeyMatch u j d) = none := by
            cases hx : store.find? (shareKeyMatch u j d)
            · rfl
            · rw [hx] at hdup
              simp at hdup
          have hnil : store.filter (shareKeyMatch u j d) = [] :=
            List.filter_eq_nil_iff.mpr (List.find?_eq_none.mp hnone)
          simp [hdup, countKey, hnil, shareKeyMatch]

/--
Claim C8 counterexample: `createShare` is a read-then-write sequence, not an
upsert, and under the racing schedule both writers read before either writes;
the second write then collides with the unique index and that attempt fails
with a duplicate-key error instead of returning success, while exactly one
record is stored.
-/
theorem claim8_counterexample :
    (raceRun "u1" "jA" "2024-01-03" inpW1 inpW2 [true, false, true, false] raceInit).w1.outcome =
      .okShare recA ∧
    (raceRun "u1" "jA" "2024-01-03" inpW1 inpW2 [true, false, true, false] raceInit).w2.outcome =
      .duplicateKeyError ∧
    (raceRun "u1" "jA" "2024-01-03" inpW1 inpW2 [true, false, true, false] raceInit).store = [recA] :=
  ⟨rfl, rfl, rfl⟩

/--
Claim C8 amended: under every interleaving of two concurrent `createShare`
executions for the same `(userId, jobId, unlockDate)` key, the store never
holds more than one record for the key, because the unique compound index
rejects a colliding insert; the implementation is a read-then-write sequence
backstopped by that index, and a racing attempt can fail with a duplicate-key
error rather than succeed.
-/
theorem claim8_unique_index_bounds_records
    (u j d : String) (inp1 inp2 : WriterInput) (sched : List Bool) (st : RaceState)
    (h : countKey u j d st.store ≤ 1) :
    countKey u j d (raceRun u j d inp1 inp2 sched st).store ≤ 1 := by
  induction sched generalizing st with
  | nil => simpa [raceRun] using h
  | cons who rest ih =>
    simp only [raceRun]
    apply ih
    unfold raceStep
    cases who
    · simpa using countKey_writerStep u j d inp2 st.store st.w2 h
    · simpa using countKey_writerStep u j d inp1 st.store st.w1 h

/-- Closed witness for claim 8 amended: the racing fixture schedule leaves at
most one record for the key. -/
theorem claim8_witness :
    countKey "u1" "jA" "2024-01-03"
      (raceRun "u1" "jA" "2024-01-03" inpW1 inpW2 [true, false, true, false] raceInit).store ≤ 1 :=
  claim8_unique_index_bounds_records "u1" "jA" "2024-01-03" inpW1 inpW2
    [true, false, true, false] raceInit (by decide)

/--
Claim C9 counterexample: a record can exist for the exact user, job and day
while the query answers false, because the query additionally filters on
`status` 1 and `isValid` true; the expired fixture record (status 2, invalid)
is stored for the pair yet `checkUnlocked` denies it.
-/
theorem claim9_counterexample :
    recExpired.userId = "u1" ∧ recExpired.jobId = "jA" ∧
    recExpired.unlockDate = "2024-01-03" ∧
    Share.checkUnlocked [recExpired] "u1" "jA" "2024-01-03" = false :=
  ⟨rfl, rfl, rfl, rfl⟩

/--
Claim C9 amended: `checkUnlocked` is a pure query that answers true exactly
when a record for the user and job exists with `unlockDate` equal to the
current day, `status` 1 and `isValid` true, and answers false — rather than
failing — whenever no record for the user and job exists at all, including
users and days never seen before.
-/
theorem claim9_check_unlocked_total_query
    (shares : List ShareRecord) (u j d : String) :
    (Share.checkUnlocked shares u j d = true ↔
      ∃ s ∈ shares, s.userId = u ∧ s.jobId = j ∧ s.unlockDate = d ∧
        s.status = 1 ∧ s.isValid = true) ∧
    ((∀ s ∈ shares, ¬ (s.userId = u ∧ s.jobId = j)) →
      Share.checkUnlocked shares u j d = false) := by
  refine ⟨checkUnlocked_iff shares u j d, ?_⟩
  intro habs
  cases hq : Share.checkUnlocked shares u j d with
  | false => rfl
  | true =>
    obtain ⟨s, hs, h1, h2, _⟩ := (checkUnlocked_iff shares u j d).mp hq
    exact absurd ⟨h1, h2⟩ (habs s hs)

/-- Closed witness for claim 9 amended: an unknown user and day yield false
on an empty collection. -/
theorem claim9_witness :
    Share.checkUnlocked [] "unknownUser" "unknownJob" "2099-12-31" = false :=
  (claim9_check_unlocked_total_query [] "unknownUser" "unknownJob" "2099-12-31").2
    (fun s hs => absurd hs (List.not_mem_nil s))

/--
Claim C10: an item with a missing or empty publish day is treated as not
published today by every today-check, without an error, and its detail stays
gated: the detail fetch reports it as needing a share and deletes the contact
fields when the requesting user holds no unlock record.
-/
theorem claim10_missing_publish_day_fail_safe
    (today : String) (unlockedDates : List String)
    (jobs : List Job) (shares : List ShareRecord) (user : Option String)
    (jobId : String) (job : Job)
    (hfind : findJob jobs jobId = some job)
    (hvis : jobVisible job = true)
    (hday : job.publishDay = none)
    (hnotUnlocked : ∀ u, user = some u → Share.checkUnlocked shares u jobId today = false) :
    isToday none today = false ∧
    isToday (some "") today = false ∧
    userUtils.isDateUnlocked none today unlockedDates = false ∧
    userUtils.isDateUnlocked (some "") today unlockedDates = false ∧
    jobStore.isDateUnlocked none today unlockedDates = false ∧
    adminController.getJobDetail jobs shares user jobId today =
      .ok { isToday := false, needShareToUnlock := true, isUnlocked := false,
            contact := none, contactPerson := none } := by
  refine ⟨rfl, by simp [isToday], rfl, by simp [userUtils.isDateUnlocked], rfl, ?_⟩
  unfold adminController.getJobDetail
  rw [hfind]
  cases user with
  | none => simp [hvis, isToday, hday]
  | some u => simp [hvis, isToday, hday, hnotUnlocked u rfl]

/-- Closed witness for claim 10: the fixture job with no publish day resolves
gated for user u1 despite an unrelated unlock record in the ledger. -/
theorem claim10_witness :
    isToday none "2024-01-03" = false ∧
    isToday (some "") "2024-01-03" = false ∧
    userUtils.isDateUnlocked none "2024-01-03" ["2024-01-01"] = false ∧
    userUtils.isDateUnlocked (some "") "2024-01-03" ["2024-01-01"] = false ∧
    jobStore.isDateUnlocked none "2024-01-03" ["2024-01-01"] = false ∧
    adminController.getJobDetail [jobNoDay] [recA] (some "u1") "jN" "2024-01-03" =
      .ok { isToday := false, needShareToUnlock := true, isUnlocked := false,
            contact := none, contactPerson := none } :=
  claim10_missing_publish_day_fail_safe "2024-01-03" ["2024-01-01"] [jobNoDay] [recA]
    (some "u1") "jN" jobNoDay rfl rfl rfl (fun u hu => by cases hu; rfl)

end WxmpRecruit
